import Mathlib

/-!
Verification development for the zquant factor-management backend.

The definitions below are a shallow embedding of the Python sources:

* `zquant/services/factor.py` — `FactorService`: factor-model CRUD, the
  JSON factor-configuration writes with their write-time validation, and
  the model resolver `get_model_for_code`.
* `zquant/factor/calculators/turnover_rate.py` — the turnover-rate
  calculator.  Its source file is not part of this tree (only its unit
  tests, `zquant/tests/unittest/test_turnover_rate_calculator.py`, are);
  those definitions are modelled from the specification and checked
  against the expectations recorded in the unit tests.

Database rows are modelled as Lean structures, tables as lists in stored
order, SQLAlchemy `.first()` as `List.find?`, and a raised Python
exception as the `Except.error` branch of an `Except Err` result.  A
service method that mutates the database is a function
`DBState → Except Err DBState`: the returned state is the state after
`db.commit()`; an `Except.error` result corresponds to an exception
raised before the commit point, leaving the committed state untouched.
-/

namespace Zquant

/-- Python exceptions raised by the service layer: `NotFoundError`
(from `zquant.core.exceptions`) and `ValueError`. -/
inductive Err where
  | notFound (msg : String)
  | valueError (msg : String)
deriving DecidableEq, Repr

/-- A row of the `FactorModel` table (`zquant/models/factor.py`), with the
columns the service layer reads. -/
structure FactorModel where
  id : Nat
  factor_id : Nat
  model_name : String
  model_code : String
  is_default : Bool
  enabled : Bool
deriving DecidableEq, Repr

/-- One entry of the `mappings` list of a JSON factor configuration:
`{"model_id": int|None, "codes": list[str]|None}`.  A `model_id` of
`some 0` models the Python integer `0`, which is falsy like `None`. -/
structure Mapping where
  model_id : Option Nat
  codes : Option (List String)
deriving DecidableEq, Repr

/-- A JSON factor-configuration dict
`{"enabled": bool, "mappings": [...]}`; either key may be absent, and the
source reads them with `config.get("enabled", True)` and
`config.get("mappings", [])`. -/
structure ConfigJson where
  enabled : Option Bool
  mappings : Option (List Mapping)
deriving DecidableEq, Repr

/-- A row of the deprecated `FactorConfig` mapping table used by
`update_factor_config_with_mappings`. -/
structure OldConfigRow where
  factor_id : Nat
  model_id : Option Nat
  codes : List String
  enabled : Bool
deriving DecidableEq, Repr

/-- A row of the new `FactorConfig` table keyed by `factor_id`, storing a
whole JSON configuration. -/
structure NewConfigRow where
  factor_id : Nat
  config : ConfigJson
  created_by : Option String
  updated_by : Option String
deriving DecidableEq, Repr

/-- A row of the `FactorDefinition` table, with the columns relevant to
configuration writes (`set_factor_config` stores the JSON config). -/
structure FactorDef where
  id : Nat
  factor_config : ConfigJson
deriving DecidableEq, Repr

/-- The committed database state seen by `FactorService`: each table in
stored order. -/
structure DBState where
  defs : List FactorDef
  models : List FactorModel
  old_configs : List OldConfigRow
  new_configs : List NewConfigRow
deriving DecidableEq, Repr

/-- Python truthiness of a mapping's `model_id`: `None` and `0` are
falsy (`if not model_id: ...`). -/
def midTruthy : Option Nat → Bool
  | none => false
  | some i => i != 0

/-- Python truthiness of a mapping's `codes`: `None` and `[]` are falsy. -/
def codesTruthy : Option (List String) → Bool
  | none => false
  | some l => !l.isEmpty

/-- Membership test `code in codes` on a possibly absent codes list. -/
def codesContain (codes : Option (List String)) (code : String) : Bool :=
  match codes with
  | none => false
  | some l => l.contains code

/-- The guard of the first resolver scan: `if codes and code in codes`. -/
def mappingMatches (code : String) (m : Mapping) : Bool :=
  codesTruthy m.codes && codesContain m.codes code

/-- A default (catch-all) mapping: `if not m.get("codes")`. -/
def isDefaultMapping (m : Mapping) : Bool :=
  !codesTruthy m.codes

/-- `FactorService.get_factor_model`: first row with the given primary
key, raising `NotFoundError` when no row matches. -/
def get_factor_model (models : List FactorModel) (model_id : Nat) :
    Except Err FactorModel :=
  match models.find? (fun m => m.id == model_id) with
  | some m => Except.ok m
  | none => Except.error (Err.notFound s!"因子模型 {model_id} 不存在")

/-- `FactorService.get_default_factor_model`: first row of the given
factor with `is_default` and `enabled` set, or `none`. -/
def get_default_factor_model (models : List FactorModel) (factor_id : Nat) :
    Option FactorModel :=
  models.find? (fun m => m.factor_id == factor_id && m.is_default && m.enabled)

/-- The shared tail of both resolver scans (lines 609–614 and 620–625 of
`factor.py`): a truthy `model_id` is looked up (raising `NotFoundError`
when stale), otherwise the factor's designated default model is used. -/
def resolve_mapping_model (models : List FactorModel) (factor_id : Nat)
    (model_id : Option Nat) : Except Err (Option FactorModel) :=
  if midTruthy model_id then
    match get_factor_model models (model_id.getD 0) with
    | Except.ok m => Except.ok (some m)
    | Except.error e => Except.error e
  else
    Except.ok (get_default_factor_model models factor_id)

/-- `FactorService.get_model_for_code`.  The source first loads the
factor definition for `factor_id` (raising `NotFoundError` when absent)
and reads `config` from the factor's stored `FactorConfig` row; the
embedding receives that stored configuration directly.  If the
configuration is disabled the resolver returns no model; otherwise it
scans `mappings` in stored order for the first mapping whose truthy
`codes` contains `code`, then for the first default mapping, and finally
falls back to the factor's designated default model. -/
def get_model_for_code (models : List FactorModel) (factor_id : Nat)
    (config : ConfigJson) (code : String) : Except Err (Option FactorModel) :=
  if !(config.enabled.getD true) then
    Except.ok none
  else
    let mappings := config.mappings.getD []
    match mappings.find? (mappingMatches code) with
    | some m => resolve_mapping_model models factor_id m.model_id
    | none =>
      match mappings.find? isDefaultMapping with
      | some m => resolve_mapping_model models factor_id m.model_id
      | none => Except.ok (get_default_factor_model models factor_id)

/-- The per-mapping half of write-time validation: every mapping must
carry a truthy `model_id` (`ValueError` otherwise) and that model must
exist (`get_factor_model` raises `NotFoundError` otherwise). -/
def check_mapping_models (models : List FactorModel) : List Mapping → Except Err Unit
  | [] => Except.ok ()
  | m :: rest =>
    if midTruthy m.model_id then
      match get_factor_model models (m.model_id.getD 0) with
      | Except.ok _ => check_mapping_models models rest
      | Except.error e => Except.error e
    else
      Except.error (Err.valueError "每个映射必须指定 model_id")

/-- Number of default (falsy-`codes`) mappings:
`sum(1 for m in mappings if not m.get("codes"))`. -/
def defaultCount (mappings : List Mapping) : Nat :=
  (mappings.filter isDefaultMapping).length

/-- The write-time validation block shared verbatim by
`update_factor_config`, `create_factor_config` and
`update_factor_config_by_factor_id`: check every mapping's model, then
reject more than one default mapping. -/
def validate_mappings (models : List FactorModel) (mappings : List Mapping) :
    Except Err Unit :=
  match check_mapping_models models mappings with
  | Except.error e => Except.error e
  | Except.ok _ =>
    if defaultCount mappings > 1 then
      Except.error (Err.valueError "只能有一个默认配置（codes为空或None）")
    else
      Except.ok ()

/-- `FactorService.get_factor_definition`: first row with the given
primary key, raising `NotFoundError` when no row matches. -/
def get_factor_definition (st : DBState) (factor_id : Nat) : Except Err FactorDef :=
  match st.defs.find? (fun d => d.id == factor_id) with
  | some d => Except.ok d
  | none => Except.error (Err.notFound s!"因子定义 {factor_id} 不存在")

/-- `FactorService.update_factor_config_with_mappings` (deprecated batch
update).  The session's pending changes — the `enabled` bulk update, the
delete of the factor's rows and the inserts — are only committed at the
end; any validation failure raises first, so an `Except.error` result
leaves the committed state unchanged.  Its duplicate-default message is
`"只能有一个默认配置（codes为空）"` (without `"或None"`), so its
validation is spelled out rather than shared with `validate_mappings`. -/
def update_factor_config_with_mappings (st : DBState) (factor_id : Nat)
    (mappings : Option (List Mapping)) (enabled : Option Bool) :
    Except Err DBState :=
  match get_factor_definition st factor_id with
  | Except.error e => Except.error e
  | Except.ok _ =>
    let rows1 :=
      match enabled with
      | some b => st.old_configs.map (fun r =>
          if r.factor_id == factor_id then { r with enabled := b } else r)
      | none => st.old_configs
    match mappings with
    | none => Except.ok { st with old_configs := rows1 }
    | some ms =>
      let rows2 := rows1.filter (fun r => !(r.factor_id == factor_id))
      match check_mapping_models st.models ms with
      | Except.error e => Except.error e
      | Except.ok _ =>
        if defaultCount ms > 1 then
          Except.error (Err.valueError "只能有一个默认配置（codes为空）")
        else
          let newRows := ms.map (fun m =>
            { factor_id := factor_id
              model_id := m.model_id
              codes := m.codes.getD []
              enabled := enabled.getD true : OldConfigRow })
          Except.ok { st with old_configs := rows2 ++ newRows }

/-- `FactorService.create_factor_config` (new table, lines 632–684):
factor must exist, no configuration row may already exist for it, and
the mappings must pass write-time validation before the insert commits. -/
def create_factor_config (st : DBState) (factor_id : Nat) (config : ConfigJson)
    (created_by : Option String) : Except Err DBState :=
  match get_factor_definition st factor_id with
  | Except.error e => Except.error e
  | Except.ok _ =>
    if (st.new_configs.find? (fun r => r.factor_id == factor_id)).isSome then
      Except.error (Err.valueError s!"因子配置 {factor_id} 已存在，请使用更新接口")
    else
      match validate_mappings st.models (config.mappings.getD []) with
      | Except.error e => Except.error e
      | Except.ok _ =>
        Except.ok { st with new_configs := st.new_configs ++
          [{ factor_id := factor_id, config := config,
             created_by := created_by, updated_by := created_by }] }

/-- `FactorService.update_factor_config` (JSON variant, lines 541–577):
the factor must exist and the mappings must pass write-time validation,
then `set_factor_config` stores the configuration on the definition row
(the row is identified by its primary key `id`). -/
def update_factor_config (st : DBState) (factor_id : Nat) (config : ConfigJson) :
    Except Err DBState :=
  match get_factor_definition st factor_id with
  | Except.error e => Except.error e
  | Except.ok _ =>
    match validate_mappings st.models (config.mappings.getD []) with
    | Except.error e => Except.error e
    | Except.ok _ =>
      Except.ok { st with defs := st.defs.map (fun d =>
        if d.id == factor_id then { d with factor_config := config } else d) }

/-- `FactorService.update_factor_config_by_factor_id` (lines 703–744):
the configuration row must exist and the mappings must pass write-time
validation, then the row's `config` (and, when given, `updated_by`) is
replaced. -/
def update_factor_config_by_factor_id (st : DBState) (factor_id : Nat)
    (config : ConfigJson) (updated_by : Option String) : Except Err DBState :=
  match st.new_configs.find? (fun r => r.factor_id == factor_id) with
  | none => Except.error (Err.notFound s!"因子配置 {factor_id} 不存在")
  | some _ =>
    match validate_mappings st.models (config.mappings.getD []) with
    | Except.error e => Except.error e
    | Except.ok _ =>
      Except.ok { st with new_configs := st.new_configs.map (fun r =>
        if r.factor_id == factor_id then
          { r with config := config,
                   updated_by := if updated_by.isSome then updated_by else r.updated_by }
        else r) }

/-- The effect on one row of the bulk update
`db.query(FactorModel).filter(factor_id == fid, is_default == True).update({"is_default": False})`:
a default row of the factor loses its `is_default` flag. -/
def clearOne (factor_id : Nat) (m : FactorModel) : FactorModel :=
  if m.factor_id == factor_id && m.is_default then { m with is_default := false } else m

/-- The bulk update run by `create_factor_model` / `update_factor_model`
before marking a model as default. -/
def clearDefaults (models : List FactorModel) (factor_id : Nat) : List FactorModel :=
  models.map (clearOne factor_id)

/-- `FactorService.create_factor_model`: the factor must exist; when the
new model is default, all other defaults of the factor are cleared
first; the insert (with the database-assigned primary key `new_id`) is
then committed. -/
def create_factor_model (st : DBState) (new_id : Nat) (factor_id : Nat)
    (model_name model_code : String) (is_default enabled : Bool) :
    Except Err DBState :=
  match get_factor_definition st factor_id with
  | Except.error e => Except.error e
  | Except.ok _ =>
    let models1 := if is_default then clearDefaults st.models factor_id else st.models
    Except.ok { st with models := models1 ++
      [{ id := new_id, factor_id := factor_id, model_name := model_name,
         model_code := model_code, is_default := is_default, enabled := enabled }] }

/-- Update the first row with the given primary key in place (SQLAlchemy
mutates the single object returned by the `.first()` lookup). -/
def updateFirstById (models : List FactorModel) (model_id : Nat)
    (f : FactorModel → FactorModel) : List FactorModel :=
  match models with
  | [] => []
  | m :: rest =>
    if m.id == model_id then f m :: rest
    else m :: updateFirstById rest model_id f

/-- The plain field updates of `update_factor_model` (`model_name`,
`model_code`, `enabled`; a `None` argument leaves the column as is). -/
def applyModelFields (m : FactorModel) (model_name model_code : Option String)
    (enabled : Option Bool) : FactorModel :=
  { m with model_name := model_name.getD m.model_name,
           model_code := model_code.getD m.model_code,
           enabled := enabled.getD m.enabled }

/-- `FactorService.update_factor_model`: looks up the model (raising
`NotFoundError`), applies the plain field updates, and — when
`is_default` is passed as true — first clears `is_default` on every
default model of the same factor before setting it on this one. -/
def update_factor_model (st : DBState) (model_id : Nat)
    (model_name model_code : Option String) (is_default enabled : Option Bool) :
    Except Err DBState :=
  match st.models.find? (fun m => m.id == model_id) with
  | none => Except.error (Err.notFound s!"因子模型 {model_id} 不存在")
  | some model =>
    match is_default with
    | none =>
      let models1 := updateFirstById st.models model_id
        (fun m => applyModelFields m model_name model_code enabled)
      Except.ok { st with models := models1 }
    | some false =>
      let models1 := updateFirstById st.models model_id
        (fun m => { applyModelFields m model_name model_code enabled with
                    is_default := false })
      Except.ok { st with models := models1 }
    | some true =>
      let models1 := updateFirstById (clearDefaults st.models model.factor_id) model_id
        (fun m => { applyModelFields m model_name model_code enabled with
                    is_default := true })
      Except.ok { st with models := models1 }

/-- Number of models of a factor marked `is_default`. -/
def defaultsFor (models : List FactorModel) (factor_id : Nat) : Nat :=
  (models.filter (fun m => m.factor_id == factor_id && m.is_default)).length

/-- The invariant `get_default_factor_model` relies on: every factor has
at most one model marked `is_default`. -/
def AtMostOneDefault (models : List FactorModel) : Prop :=
  ∀ factor_id : Nat, defaultsFor models factor_id ≤ 1

/-- The committed state an operation leaves behind: the new state on a
committed write, the original state when the operation raised before its
commit point. -/
def resultingState (st : DBState) (r : Except Err DBState) : DBState :=
  match r with
  | Except.ok st' => st'
  | Except.error _ => st

/-! ## Turnover-rate calculator

`zquant/factor/calculators/turnover_rate.py` is not part of this source
tree — only its unit tests are — so the definitions below are modelled
from the specification and checked against the expectations of
`test_turnover_rate_calculator.py`. -/

/-- The value an observation row holds for the configured field:
`null` (absent or `None`), a numeric value, or a non-numeric value such
as the string `"invalid"` used by the tests. -/
inductive FieldVal where
  | null
  | num (v : ℚ)
  | nonNumeric
deriving DecidableEq, Repr

/-- Modelled from the spec: an observation fetched from the external
daily series, projected to the configured field.  `trade_date` is the
parsed date as a day ordinal, `none` when the raw date fails to parse. -/
structure Obs where
  trade_date : Option Int
  value : FieldVal
deriving DecidableEq, Repr

/-- The calculator's configuration: `source`, `field`, optional `method`
(`"ma"` selects the moving average) and the `window` size. -/
structure CalcConfig where
  source : String
  field : String
  method : Option String
  window : Int
deriving DecidableEq, Repr

/-- The defaults recorded by `test_default_config`: source
`daily_basic`, field `turnover_rate`, no method, window 5. -/
def defaultCalcConfig : CalcConfig :=
  { source := "daily_basic", field := "turnover_rate", method := none, window := 5 }

/-- The recognized data origins (the tests accept `daily_basic` and
reject `invalid_source`). -/
def SUPPORTED_SOURCES : List String := ["daily_basic"]

/-- Modelled from the spec: `TurnoverRateCalculator.validate_config`
returns `(ok, message)`; an unrecognized source, an empty field and an
out-of-range moving-average window each fail with their own message (the
message texts are those asserted by the unit tests). -/
def validate_config (cfg : CalcConfig) : Bool × String :=
  if !(SUPPORTED_SOURCES.contains cfg.source) then
    (false, "不支持的数据来源: " ++ cfg.source)
  else if cfg.field = "" then
    (false, "字段名不能为空")
  else if cfg.method == some "ma" then
    if cfg.window ≤ 0 then (false, "移动平均窗口大小必须是正整数")
    else if cfg.window > 60 then (false, "移动平均窗口大小不能超过60")
    else (true, "")
  else
    (true, "")

/-- A valid observation for the moving average: its date parsed, is not
after the as-of date, and its field value is numeric. -/
def isValidObs (asOf : Int) (o : Obs) : Bool :=
  match o.trade_date, o.value with
  | some d, FieldVal.num _ => decide (d ≤ asOf)
  | _, _ => false

/-- The sort key: the parsed trade date (only applied to valid
observations, whose date is present). -/
def obsDate (o : Obs) : Int := o.trade_date.getD 0

/-- The numeric field value (only applied to valid observations). -/
def obsValue (o : Obs) : ℚ :=
  match o.value with
  | FieldVal.num v => v
  | _ => 0

/-- Date order on observations, the key of the calculator's sort. -/
def obsLE (a b : Obs) : Prop := obsDate a ≤ obsDate b

instance : DecidableRel obsLE := fun a b =>
  inferInstanceAs (Decidable (obsDate a ≤ obsDate b))

instance : IsTotal Obs obsLE := ⟨fun a b => Int.le_total (obsDate a) (obsDate b)⟩

instance : IsTrans Obs obsLE := ⟨fun _ _ _ => Int.le_trans⟩

/-- Strict date order, used to state uniqueness of the sorted series. -/
def obsLT (a b : Obs) : Prop := obsDate a < obsDate b

/-- The last `n` elements of a list, Python's `l[-n:]` for `n ≥ 0`. -/
def lastN (n : Nat) (l : List Obs) : List Obs := l.drop (l.length - n)

/-- Arithmetic mean, `sum(values) / len(values)`. -/
def meanVals (l : List ℚ) : ℚ := l.sum / l.length

/-- Modelled from the spec: moving-average mode — keep the valid
observations, sort them by date, return `none` when fewer than `window`
remain, else the mean of the most recent `window` of them. -/
def calc_ma (window : Int) (asOf : Int) (rows : List Obs) : Option ℚ :=
  let valid := rows.filter (isValidObs asOf)
  if (valid.length : Int) < window then none
  else some (meanVals ((lastN window.toNat (List.insertionSort obsLE valid)).map obsValue))

/-- Modelled from the spec: `TurnoverRateCalculator.calculate`.  The
whole body runs under a `try/except` that converts any fetch-layer
exception into `none`; raw mode returns the single fetched value when it
is numeric and `none` otherwise; `method == "ma"` selects the moving
average. -/
def calculate (cfg : CalcConfig) (asOf : Int) (fetched : Except Unit (List Obs)) :
    Option ℚ :=
  match fetched with
  | Except.error _ => none
  | Except.ok rows =>
    if cfg.method == some "ma" then calc_ma cfg.window asOf rows
    else
      match rows with
      | [] => none
      | r :: _ =>
        match r.value with
        | FieldVal.num v => some v
        | _ => none

instance : IsAntisymm Obs obsLT :=
  ⟨fun _ _ h1 h2 => absurd (lt_trans h1 h2) (lt_irrefl _)⟩

/-! ## Theorems -/

/-- `find?` on a split list whose left part has no hit returns the
element at the split point. -/
theorem find?_first_of_append {α : Type} (p : α → Bool) (pre : List α) (m : α)
    (post : List α) (hpre : ∀ x ∈ pre, p x = false) (hm : p m = true) :
    (pre ++ m :: post).find? p = some m := by
  rw [List.find?_append]
  have h1 : pre.find? p = none :=
    List.find?_eq_none.mpr (fun x hx => by simp [hpre x hx])
  rw [h1, List.find?_cons_of_pos _ hm]
  rfl

/-- `resolve_mapping_model` written as a conditional. -/
theorem resolve_mapping_model_eq (models : List FactorModel) (factor_id : Nat)
    (mid : Option Nat) :
    resolve_mapping_model models factor_id mid =
      (if midTruthy mid then Except.map some (get_factor_model models (mid.getD 0))
       else Except.ok (get_default_factor_model models factor_id)) := by
  by_cases h : midTruthy mid = true
  · simp only [resolve_mapping_model, h, if_true]
    cases hg : get_factor_model models (mid.getD 0) <;> simp [Except.map]
  · simp [resolve_mapping_model, h]

/-- On an enabled configuration the resolver reduces to the two scans. -/
theorem get_model_for_code_enabled (models : List FactorModel) (factor_id : Nat)
    (enabled : Option Bool) (mappings : List Mapping) (code : String)
    (hen : enabled.getD true = true) :
    get_model_for_code models factor_id ⟨enabled, some mappings⟩ code =
      (match mappings.find? (mappingMatches code) with
       | some m => resolve_mapping_model models factor_id m.model_id
       | none =>
         match mappings.find? isDefaultMapping with
         | some m => resolve_mapping_model models factor_id m.model_id
         | none => Except.ok (get_default_factor_model models factor_id)) := by
  simp [get_model_for_code, hen]

/-- C1: on an enabled configuration the resolver scans the mappings in
stored order; the first mapping whose truthy `codes` contains the
queried code determines the result (its model when `model_id` is truthy,
else the factor's designated default model), regardless of the mappings
after it — so when a code appears in several non-default mappings, the
earliest one in stored order wins. -/
theorem claim_C1_first_matching_mapping_wins (models : List FactorModel)
    (factor_id : Nat) (enabled : Option Bool) (pre post : List Mapping)
    (m : Mapping) (code : String)
    (hen : enabled.getD true = true)
    (hpre : ∀ m' ∈ pre, mappingMatches code m' = false)
    (hm : mappingMatches code m = true) :
    get_model_for_code models factor_id ⟨enabled, some (pre ++ m :: post)⟩ code =
      (if midTruthy m.model_id then
        Except.map some (get_factor_model models (m.model_id.getD 0))
       else Except.ok (get_default_factor_model models factor_id)) := by
  rw [get_model_for_code_enabled models factor_id enabled (pre ++ m :: post) code hen,
    find?_first_of_append (mappingMatches code) pre m post hpre hm]
  exact resolve_mapping_model_eq models factor_id m.model_id

/-- Witness for C1: the code `"X"` appears in the second and third
mappings; the second (the first containing it) names model 1, which is
returned even though the third names model 7. -/
theorem claim_C1_witness :
    get_model_for_code
      [{ id := 1, factor_id := 10, model_name := "m1", model_code := "c1",
         is_default := false, enabled := true },
       { id := 7, factor_id := 10, model_name := "m7", model_code := "c7",
         is_default := false, enabled := true }]
      10
      ⟨some true, some [⟨some 9, some ["Y"]⟩, ⟨some 1, some ["X"]⟩, ⟨some 7, some ["X"]⟩]⟩
      "X" =
      Except.ok (some { id := 1, factor_id := 10, model_name := "m1",
                        model_code := "c1", is_default := false, enabled := true }) := by
  have h := claim_C1_first_matching_mapping_wins
    [{ id := 1, factor_id := 10, model_name := "m1", model_code := "c1",
       is_default := false, enabled := true },
     { id := 7, factor_id := 10, model_name := "m7", model_code := "c7",
       is_default := false, enabled := true }]
    10 (some true) [⟨some 9, some ["Y"]⟩] [⟨some 7, some ["X"]⟩] ⟨some 1, some ["X"]⟩
    "X" rfl (by decide) (by decide)
  exact h.trans rfl

/-- C6: a disabled configuration resolves to no model for every code,
whatever its mappings. -/
theorem claim_C6_disabled_returns_none (models : List FactorModel)
    (factor_id : Nat) (mappings : Option (List Mapping)) (code : String) :
    get_model_for_code models factor_id ⟨some false, mappings⟩ code =
      Except.ok none := rfl

/-- C7: on an enabled configuration, a code contained in no matching
(non-default) mapping resolves through the first default mapping in
stored order; when no default mapping exists either — including the
zero-mapping configuration — the factor's designated default model is
returned. -/
theorem claim_C7_default_mapping_fallback (models : List FactorModel)
    (factor_id : Nat) (enabled : Option Bool) (mappings : List Mapping)
    (code : String)
    (hen : enabled.getD true = true)
    (hnomatch : ∀ m ∈ mappings, mappingMatches code m = false) :
    (∀ pre dm post, mappings = pre ++ dm :: post →
        (∀ d ∈ pre, isDefaultMapping d = false) → isDefaultMapping dm = true →
        get_model_for_code models factor_id ⟨enabled, some mappings⟩ code =
          (if midTruthy dm.model_id then
            Except.map some (get_factor_model models (dm.model_id.getD 0))
           else Except.ok (get_default_factor_model models factor_id))) ∧
    ((∀ m ∈ mappings, isDefaultMapping m = false) →
        get_model_for_code models factor_id ⟨enabled, some mappings⟩ code =
          Except.ok (get_default_factor_model models factor_id)) := by
  have hfind : mappings.find? (mappingMatches code) = none :=
    List.find?_eq_none.mpr (fun x hx => by simp [hnomatch x hx])
  constructor
  · intro pre dm post hsplit hpre hdm
    rw [get_model_for_code_enabled models factor_id enabled mappings code hen, hfind]
    have hdef : mappings.find? isDefaultMapping = some dm := by
      rw [hsplit]; exact find?_first_of_append isDefaultMapping pre dm post hpre hdm
    rw [hdef]
    exact resolve_mapping_model_eq models factor_id dm.model_id
  · intro hnodef
    rw [get_model_for_code_enabled models factor_id enabled mappings code hen, hfind]
    have hdef : mappings.find? isDefaultMapping = none :=
      List.find?_eq_none.mpr (fun x hx => by simp [hnodef x hx])
    rw [hdef]

/-- Witness for C7: code `"Z"` matches no mapping; the default mapping
names model 2, which is returned. -/
theorem claim_C7_witness :
    get_model_for_code
      [{ id := 2, factor_id := 10, model_name := "m2", model_code := "c2",
         is_default := false, enabled := true },
       { id := 5, factor_id := 10, model_name := "m5", model_code := "c5",
         is_default := true, enabled := true }]
      10 ⟨some true, some [⟨some 9, some ["Y"]⟩, ⟨some 2, none⟩]⟩ "Z" =
      Except.ok (some { id := 2, factor_id := 10, model_name := "m2",
                        model_code := "c2", is_default := false, enabled := true }) := by
  have h := (claim_C7_default_mapping_fallback
    [{ id := 2, factor_id := 10, model_name := "m2", model_code := "c2",
       is_default := false, enabled := true },
     { id := 5, factor_id := 10, model_name := "m5", model_code := "c5",
       is_default := true, enabled := true }]
    10 (some true) [⟨some 9, some ["Y"]⟩, ⟨some 2, none⟩] "Z" rfl (by decide)).1
    [⟨some 9, some ["Y"]⟩] ⟨some 2, none⟩ [] rfl (by decide) (by decide)
  rw [h]
  rfl

/-- C10: on an enabled configuration whose first matching mapping names
a model id that exists in no `FactorModel` row, the resolver propagates
`NotFoundError` from `get_factor_model` instead of returning no model or
falling back to the default model. -/
theorem claim_C10_stale_model_raises (models : List FactorModel)
    (factor_id : Nat) (enabled : Option Bool) (pre post : List Mapping)
    (m : Mapping) (code : String) (i : Nat)
    (hen : enabled.getD true = true)
    (hpre : ∀ m' ∈ pre, mappingMatches code m' = false)
    (hm : mappingMatches code m = true)
    (hmid : m.model_id = some i) (hi : i ≠ 0)
    (hmiss : models.find? (fun fm => fm.id == i) = none) :
    get_model_for_code models factor_id ⟨enabled, some (pre ++ m :: post)⟩ code =
      Except.error (Err.notFound s!"因子模型 {i} 不存在") := by
  rw [get_model_for_code_enabled models factor_id enabled (pre ++ m :: post) code hen,
    find?_first_of_append (mappingMatches code) pre m post hpre hm]
  show resolve_mapping_model models factor_id m.model_id = _
  rw [resolve_mapping_model_eq models factor_id m.model_id]
  have htruthy : midTruthy m.model_id = true := by simp [midTruthy, hmid, hi]
  rw [if_pos htruthy, hmid]
  simp only [Option.getD_some]
  unfold get_factor_model
  rw [hmiss]
  rfl

/-- Witness for C10: the only mapping for `"X"` names model 3, no model
row has id 3, and resolution raises `NotFoundError`. -/
theorem claim_C10_witness :
    get_model_for_code
      [{ id := 1, factor_id := 10, model_name := "m1", model_code := "c1",
         is_default := true, enabled := true }]
      10 ⟨some true, some [⟨some 3, some ["X"]⟩]⟩ "X" =
      Except.error (Err.notFound "因子模型 3 不存在") := by
  have h := claim_C10_stale_model_raises
    [{ id := 1, factor_id := 10, model_name := "m1", model_code := "c1",
       is_default := true, enabled := true }]
    10 (some true) [] [] ⟨some 3, some ["X"]⟩ "X" 3 rfl (by decide) (by decide)
    rfl (by decide) (by decide)
  simpa using h

/-- The per-mapping model check passes when every mapping carries a
truthy `model_id` naming an existing model row. -/
theorem check_mapping_models_ok (models : List FactorModel) (mappings : List Mapping)
    (h : ∀ m ∈ mappings, ∃ i, m.model_id = some i ∧ i ≠ 0 ∧
      (models.find? (fun fm => fm.id == i)).isSome = true) :
    check_mapping_models models mappings = Except.ok () := by
  induction mappings with
  | nil => rfl
  | cons m rest ih =>
    obtain ⟨i, hmid, hi, hfind⟩ := h m (by simp)
    have htruthy : midTruthy m.model_id = true := by simp [midTruthy, hmid, hi]
    obtain ⟨fm, hfm⟩ := Option.isSome_iff_exists.mp hfind
    have hg : get_factor_model models (m.model_id.getD 0) = Except.ok fm := by
      simp [get_factor_model, hmid, hfm]
    simp only [check_mapping_models, htruthy, if_true, hg]
    exact ih (fun m' hm' => h m' (by simp [hm']))

/-- A failing `validate_mappings` comes from a failing model check or
from more than one default mapping. -/
theorem validate_fail_parts (models : List FactorModel) (mappings : List Mapping)
    (h : (validate_mappings models mappings).isOk = false) :
    (∃ e, check_mapping_models models mappings = Except.error e) ∨
      1 < defaultCount mappings := by
  unfold validate_mappings at h
  cases hc : check_mapping_models models mappings with
  | error e => exact Or.inl ⟨e, rfl⟩
  | ok u =>
    rw [hc] at h
    by_cases hd : defaultCount mappings > 1
    · exact Or.inr hd
    · rw [if_neg hd] at h
      simp [Except.isOk, Except.toBool] at h

/-- C4: write-time validation of a configuration succeeds whenever at
most one mapping is default (falsy `codes`) and every mapping's
`model_id` names an existing model row; it fails whenever two or more
mappings are default. -/
theorem claim_C4_write_validation (models : List FactorModel) (mappings : List Mapping) :
    ((∀ m ∈ mappings, ∃ i, m.model_id = some i ∧ i ≠ 0 ∧
        (models.find? (fun fm => fm.id == i)).isSome = true) →
      defaultCount mappings ≤ 1 →
      validate_mappings models mappings = Except.ok ()) ∧
    (2 ≤ defaultCount mappings →
      (validate_mappings models mappings).isOk = false) := by
  constructor
  · intro hmods hcount
    unfold validate_mappings
    rw [check_mapping_models_ok models mappings hmods]
    rw [if_neg (by omega)]
  · intro h2
    unfold validate_mappings
    cases hc : check_mapping_models models mappings with
    | error e => rfl
    | ok u => rw [if_pos (by omega)]; rfl

/-- Witness for C4: a one-specific-one-default configuration over an
existing model validates; a two-default configuration is rejected. -/
theorem claim_C4_witness :
    validate_mappings
      [{ id := 1, factor_id := 10, model_name := "m1", model_code := "c1",
         is_default := false, enabled := true }]
      [⟨some 1, some ["X"]⟩, ⟨some 1, none⟩] = Except.ok () ∧
    (validate_mappings
      [{ id := 1, factor_id := 10, model_name := "m1", model_code := "c1",
         is_default := false, enabled := true }]
      [⟨some 1, none⟩, ⟨some 1, some []⟩]).isOk = false := by
  constructor
  · exact (claim_C4_write_validation
      [{ id := 1, factor_id := 10, model_name := "m1", model_code := "c1",
         is_default := false, enabled := true }]
      [⟨some 1, some ["X"]⟩, ⟨some 1, none⟩]).1
      (by intro m hm; refine ⟨1, ?_, by decide, by fin_cases hm <;> decide⟩
          fin_cases hm <;> rfl)
      (by decide)
  · exact (claim_C4_write_validation
      [{ id := 1, factor_id := 10, model_name := "m1", model_code := "c1",
         is_default := false, enabled := true }]
      [⟨some 1, none⟩, ⟨some 1, some []⟩]).2 (by decide)

/-- An operation that did not commit leaves the committed state as is. -/
theorem resultingState_of_not_ok (st : DBState) (r : Except Err DBState)
    (h : r.isOk = false) : resultingState st r = st := by
  cases r with
  | ok st' => simp [Except.isOk, Except.toBool] at h
  | error e => rfl

/-- The deprecated batch update raises when validation fails. -/
theorem with_mappings_fails (st : DBState) (factor_id : Nat) (ms : List Mapping)
    (enabled : Option Bool)
    (h : (validate_mappings st.models ms).isOk = false) :
    (update_factor_config_with_mappings st factor_id (some ms) enabled).isOk = false := by
  unfold update_factor_config_with_mappings
  cases hdef : get_factor_definition st factor_id with
  | error e => rfl
  | ok fd =>
    rcases validate_fail_parts st.models ms h with ⟨e, hc⟩ | hd
    · simp only [hc]; rfl
    · cases hc : check_mapping_models st.models ms with
      | error e => simp only [hc]; rfl
      | ok u => simp only [hc]; rw [if_pos hd]; rfl

/-- `create_factor_config` raises when validation fails. -/
theorem create_config_fails (st : DBState) (factor_id : Nat) (config : ConfigJson)
    (created_by : Option String)
    (h : (validate_mappings st.models (config.mappings.getD [])).isOk = false) :
    (create_factor_config st factor_id config created_by).isOk = false := by
  unfold create_factor_config
  cases hdef : get_factor_definition st factor_id with
  | error e => rfl
  | ok fd =>
    by_cases hex : (st.new_configs.find? (fun r => r.factor_id == factor_id)).isSome = true
    · rw [if_pos hex]; rfl
    · rw [if_neg hex]
      cases hv : validate_mappings st.models (config.mappings.getD []) with
      | error e => simp only [hv]; rfl
      | ok u => rw [hv] at h; simp [Except.isOk, Except.toBool] at h

/-- The JSON `update_factor_config` raises when validation fails. -/
theorem update_config_fails (st : DBState) (factor_id : Nat) (config : ConfigJson)
    (h : (validate_mappings st.models (config.mappings.getD [])).isOk = false) :
    (update_factor_config st factor_id config).isOk = false := by
  unfold update_factor_config
  cases hdef : get_factor_definition st factor_id with
  | error e => rfl
  | ok fd =>
    cases hv : validate_mappings st.models (config.mappings.getD []) with
    | error e => simp only [hv]; rfl
    | ok u => rw [hv] at h; simp [Except.isOk, Except.toBool] at h

/-- `update_factor_config_by_factor_id` raises when validation fails. -/
theorem update_config_by_fid_fails (st : DBState) (factor_id : Nat)
    (config : ConfigJson) (updated_by : Option String)
    (h : (validate_mappings st.models (config.mappings.getD [])).isOk = false) :
    (update_factor_config_by_factor_id st factor_id config updated_by).isOk = false := by
  unfold update_factor_config_by_factor_id
  cases hrow : st.new_configs.find? (fun r => r.factor_id == factor_id) with
  | none => rfl
  | some row =>
    cases hv : validate_mappings st.models (config.mappings.getD []) with
    | error e => simp only [hv]; rfl
    | ok u => rw [hv] at h; simp [Except.isOk, Except.toBool] at h

/-- C5: whenever write-time validation rejects a configuration's
mappings, every configuration-writing operation — the deprecated batch
mapping update, `create_factor_config`, the JSON `update_factor_config`
and `update_factor_config_by_factor_id` — raises instead of committing,
and the committed state is unchanged. -/
theorem claim_C5_atomic_rejection (st : DBState) (factor_id : Nat)
    (config : ConfigJson) (enabled : Option Bool)
    (created_by updated_by : Option String)
    (h : (validate_mappings st.models (config.mappings.getD [])).isOk = false) :
    ((update_factor_config_with_mappings st factor_id (some (config.mappings.getD []))
        enabled).isOk = false ∧
      resultingState st (update_factor_config_with_mappings st factor_id
        (some (config.mappings.getD [])) enabled) = st) ∧
    ((create_factor_config st factor_id config created_by).isOk = false ∧
      resultingState st (create_factor_config st factor_id config created_by) = st) ∧
    ((update_factor_config st factor_id config).isOk = false ∧
      resultingState st (update_factor_config st factor_id config) = st) ∧
    ((update_factor_config_by_factor_id st factor_id config updated_by).isOk = false ∧
      resultingState st (update_factor_config_by_factor_id st factor_id config
        updated_by) = st) := by
  have h1 := with_mappings_fails st factor_id (config.mappings.getD []) enabled h
  have h2 := create_config_fails st factor_id config created_by h
  have h3 := update_config_fails st factor_id config h
  have h4 := update_config_by_fid_fails st factor_id config updated_by h
  exact ⟨⟨h1, resultingState_of_not_ok _ _ h1⟩, ⟨h2, resultingState_of_not_ok _ _ h2⟩,
    ⟨h3, resultingState_of_not_ok _ _ h3⟩, ⟨h4, resultingState_of_not_ok _ _ h4⟩⟩

/-- Witness for C5: a configuration with two default mappings is
rejected by all four writing operations against a state holding the
factor, one model and an existing configuration row; the committed
state is untouched. -/
theorem claim_C5_witness :
    (update_factor_config_with_mappings
      ⟨[⟨10, ⟨none, none⟩⟩],
       [{ id := 1, factor_id := 10, model_name := "m1", model_code := "c1",
          is_default := false, enabled := true }],
       [], [⟨10, ⟨none, none⟩, none, none⟩]⟩
      10 (some [⟨some 1, none⟩, ⟨some 1, none⟩]) none).isOk = false ∧
    resultingState
      ⟨[⟨10, ⟨none, none⟩⟩],
       [{ id := 1, factor_id := 10, model_name := "m1", model_code := "c1",
          is_default := false, enabled := true }],
       [], [⟨10, ⟨none, none⟩, none, none⟩]⟩
      (update_factor_config_by_factor_id
        ⟨[⟨10, ⟨none, none⟩⟩],
         [{ id := 1, factor_id := 10, model_name := "m1", model_code := "c1",
            is_default := false, enabled := true }],
         [], [⟨10, ⟨none, none⟩, none, none⟩]⟩
        10 ⟨some true, some [⟨some 1, none⟩, ⟨some 1, none⟩]⟩ none) =
      ⟨[⟨10, ⟨none, none⟩⟩],
       [{ id := 1, factor_id := 10, model_name := "m1", model_code := "c1",
          is_default := false, enabled := true }],
       [], [⟨10, ⟨none, none⟩, none, none⟩]⟩ := by
  have h := claim_C5_atomic_rejection
    ⟨[⟨10, ⟨none, none⟩⟩],
     [{ id := 1, factor_id := 10, model_name := "m1", model_code := "c1",
        is_default := false, enabled := true }],
     [], [⟨10, ⟨none, none⟩, none, none⟩]⟩
    10 ⟨some true, some [⟨some 1, none⟩, ⟨some 1, none⟩]⟩ none none none (by decide)
  exact ⟨h.1.1, h.2.2.2.2⟩

/-- Whether a model row counts as a default of factor `g`. -/
theorem defaultsFor_cons (m : FactorModel) (l : List FactorModel) (g : Nat) :
    defaultsFor (m :: l) g =
      (if m.factor_id == g && m.is_default then 1 else 0) + defaultsFor l g := by
  simp only [defaultsFor, List.filter_cons]
  by_cases h : (m.factor_id == g && m.is_default) = true
  · simp [h, Nat.add_comm]
  · simp [h]

theorem defaultsFor_append (l1 l2 : List FactorModel) (g : Nat) :
    defaultsFor (l1 ++ l2) g = defaultsFor l1 g + defaultsFor l2 g := by
  simp [defaultsFor, List.filter_append]

theorem clearOne_id (fid : Nat) (m : FactorModel) : (clearOne fid m).id = m.id := by
  unfold clearOne; split <;> rfl

theorem clearOne_factor_id (fid : Nat) (m : FactorModel) :
    (clearOne fid m).factor_id = m.factor_id := by
  unfold clearOne; split <;> rfl

/-- A cleared row never counts as a default of the cleared factor. -/
theorem ind_clearOne_self (fid : Nat) (m : FactorModel) :
    (if (clearOne fid m).factor_id == fid && (clearOne fid m).is_default then 1 else 0)
      = 0 := by
  unfold clearOne
  by_cases h : (m.factor_id == fid && m.is_default) = true
  · simp [h]
  · rw [Bool.not_eq_true] at h
    simp [h]

/-- Clearing a factor's defaults does not change whether a row counts as
a default of another factor. -/
theorem ind_clearOne_other (fid g : Nat) (m : FactorModel) (hne : g ≠ fid) :
    (if (clearOne fid m).factor_id == g && (clearOne fid m).is_default then 1 else 0)
      = (if m.factor_id == g && m.is_default then 1 else 0) := by
  unfold clearOne
  by_cases h : (m.factor_id == fid && m.is_default) = true
  · rw [if_pos h]
    rw [Bool.and_eq_true] at h
    have hfid : m.factor_id = fid := by simpa using h.1
    have h1 : (m.factor_id == g) = false := by
      simp [hfid]
      omega
    simp [h1]
  · rw [if_neg h]

/-- Clearing a factor's defaults leaves it with none. -/
theorem defaultsFor_clearDefaults_self (l : List FactorModel) (fid : Nat) :
    defaultsFor (clearDefaults l fid) fid = 0 := by
  induction l with
  | nil => rfl
  | cons m rest ih =>
    rw [clearDefaults, List.map_cons, defaultsFor_cons, ind_clearOne_self]
    rw [clearDefaults] at ih
    simpa using ih

/-- Clearing one factor's defaults does not touch another factor's. -/
theorem defaultsFor_clearDefaults_other (l : List FactorModel) (fid g : Nat)
    (hne : g ≠ fid) :
    defaultsFor (clearDefaults l fid) g = defaultsFor l g := by
  induction l with
  | nil => rfl
  | cons m rest ih =>
    rw [clearDefaults, List.map_cons, defaultsFor_cons, ind_clearOne_other fid g m hne,
      defaultsFor_cons]
    rw [clearDefaults] at ih
    rw [ih]

/-- Updating one row without newly marking it default never increases a
factor's default count. -/
theorem defaultsFor_updateFirstById_le (l : List FactorModel) (id0 : Nat)
    (f : FactorModel → FactorModel)
    (hfac : ∀ m, (f m).factor_id = m.factor_id)
    (hdef : ∀ m, (f m).is_default = true → m.is_default = true) :
    ∀ g, defaultsFor (updateFirstById l id0 f) g ≤ defaultsFor l g := by
  induction l with
  | nil => intro g; simp [updateFirstById]
  | cons m rest ih =>
    intro g
    rw [updateFirstById]
    by_cases hm : (m.id == id0) = true
    · rw [if_pos hm, defaultsFor_cons, defaultsFor_cons]
      have hind : (if (f m).factor_id == g && (f m).is_default then 1 else 0) ≤
          (if m.factor_id == g && m.is_default then 1 else 0) := by
        by_cases h1 : ((f m).factor_id == g && (f m).is_default) = true
        · rw [if_pos h1]
          rw [Bool.and_eq_true] at h1
          have h2 : (m.factor_id == g && m.is_default) = true := by
            rw [Bool.and_eq_true]
            exact ⟨by rw [← hfac m]; exact h1.1, hdef m h1.2⟩
          rw [if_pos h2]
        · rw [if_neg h1]; exact Nat.zero_le _
      omega
    · rw [if_neg hm, defaultsFor_cons, defaultsFor_cons]
      have := ih g
      omega

/-- Clearing a factor's defaults and then marking the looked-up row as
default leaves at most one default for its factor and does not increase
any other factor's count. -/
theorem defaultsFor_clear_set (id0 : Nat) (f : FactorModel → FactorModel)
    (hfac : ∀ m, (f m).factor_id = m.factor_id)
    (hdef : ∀ m, (f m).is_default = true)
    (model : FactorModel) :
    ∀ l : List FactorModel, l.find? (fun m => m.id == id0) = some model →
    ∀ g, defaultsFor (updateFirstById (clearDefaults l model.factor_id) id0 f) g ≤
      if g = model.factor_id then 1 else defaultsFor l g := by
  intro l
  induction l with
  | nil => intro hfind; simp at hfind
  | cons m rest ih =>
    intro hfind g
    simp only [clearDefaults, List.map_cons, updateFirstById, clearOne_id]
    by_cases hm : (m.id == id0) = true
    · simp only [List.find?, hm] at hfind
      have hmodel : m = model := Option.some.inj hfind
      subst hmodel
      rw [if_pos hm, defaultsFor_cons]
      by_cases hg : g = m.factor_id
      · subst hg
        have h1 : ((f (clearOne m.factor_id m)).factor_id == m.factor_id &&
            (f (clearOne m.factor_id m)).is_default) = true := by
          rw [Bool.and_eq_true, hfac, clearOne_factor_id]
          exact ⟨by simp, hdef _⟩
        rw [if_pos h1, if_pos rfl]
        have h0 := defaultsFor_clearDefaults_self rest m.factor_id
        rw [clearDefaults] at h0
        omega
      · have h1 : ((f (clearOne m.factor_id m)).factor_id == g &&
            (f (clearOne m.factor_id m)).is_default) = false := by
          have hne : ((f (clearOne m.factor_id m)).factor_id == g) = false := by
            rw [hfac, clearOne_factor_id]
            simp
            omega
          simp [hne]
        rw [h1, if_neg hg, defaultsFor_cons]
        simp only [Bool.false_eq_true, if_false]
        have h2 := defaultsFor_clearDefaults_other rest m.factor_id g hg
        rw [clearDefaults] at h2
        omega
    · rw [Bool.not_eq_true] at hm
      simp only [List.find?, hm] at hfind
      rw [if_neg (by simp [hm]), defaultsFor_cons]
      have hrec := ih hfind g
      simp only [clearDefaults] at hrec
      by_cases hg : g = model.factor_id
      · subst hg
        have h1 := ind_clearOne_self model.factor_id m
        rw [if_pos rfl] at hrec ⊢
        omega
      · have h1 := ind_clearOne_other model.factor_id g m hg
        rw [if_neg hg] at hrec ⊢
        rw [h1, defaultsFor_cons]
        omega

theorem defaultsFor_singleton (x : FactorModel) (g : Nat) :
    defaultsFor [x] g = if x.factor_id == g && x.is_default then 1 else 0 := by
  rw [defaultsFor_cons]
  rfl

/-- C9: every factor keeps at most one model marked `is_default` — both
`create_factor_model` and `update_factor_model` clear the other default
models of the factor before marking one as default, so any committed
state they produce from a state satisfying the invariant satisfies it
again (the invariant `get_default_factor_model` relies on). -/
theorem claim_C9_default_model_invariant (st : DBState)
    (hinv : AtMostOneDefault st.models) :
    (∀ new_id factor_id model_name model_code is_default enabled st',
        create_factor_model st new_id factor_id model_name model_code is_default enabled
          = Except.ok st' → AtMostOneDefault st'.models) ∧
    (∀ model_id model_name model_code is_default enabled st',
        update_factor_model st model_id model_name model_code is_default enabled
          = Except.ok st' → AtMostOneDefault st'.models) := by
  constructor
  · intro new_id factor_id model_name model_code is_default enabled st' hok
    cases is_default with
    | true =>
      unfold create_factor_model at hok
      cases hdef0 : get_factor_definition st factor_id with
      | error e => rw [hdef0] at hok; exact absurd hok (by simp)
      | ok fd =>
        simp only [hdef0, if_true] at hok
        cases hok
        intro g
        rw [defaultsFor_append, defaultsFor_singleton]
        by_cases hg : g = factor_id
        · subst hg
          have h0 := defaultsFor_clearDefaults_self st.models g
          simp [h0]
        · have h2 := defaultsFor_clearDefaults_other st.models factor_id g hg
          have h3 := hinv g
          have h4 : (factor_id == g) = false := by
            simp
            omega
          simp [h2, h4]
          omega
    | false =>
      unfold create_factor_model at hok
      cases hdef0 : get_factor_definition st factor_id with
      | error e => rw [hdef0] at hok; exact absurd hok (by simp)
      | ok fd =>
        simp only [hdef0, if_false] at hok
        cases hok
        intro g
        rw [defaultsFor_append, defaultsFor_singleton]
        have h3 := hinv g
        simp
        omega
  · intro model_id model_name model_code is_default enabled st' hok
    cases is_default with
    | none =>
      unfold update_factor_model at hok
      cases hfm : st.models.find? (fun m => m.id == model_id) with
      | none => rw [hfm] at hok; exact absurd hok (by simp)
      | some model =>
        simp only [hfm] at hok
        cases hok
        intro g
        have hle := defaultsFor_updateFirstById_le st.models model_id
          (fun m => applyModelFields m model_name model_code enabled)
          (fun m => rfl) (fun m h => h) g
        exact le_trans hle (hinv g)
    | some b =>
      cases b with
      | false =>
        unfold update_factor_model at hok
        cases hfm : st.models.find? (fun m => m.id == model_id) with
        | none => rw [hfm] at hok; exact absurd hok (by simp)
        | some model =>
          simp only [hfm] at hok
          cases hok
          intro g
          have hle := defaultsFor_updateFirstById_le st.models model_id
            (fun m => { applyModelFields m model_name model_code enabled with
                        is_default := false })
            (fun m => rfl) (fun m h => absurd h Bool.false_ne_true) g
          exact le_trans hle (hinv g)
      | true =>
        unfold update_factor_model at hok
        cases hfm : st.models.find? (fun m => m.id == model_id) with
        | none => rw [hfm] at hok; exact absurd hok (by simp)
        | some model =>
          simp only [hfm] at hok
          cases hok
          intro g
          have hcs := defaultsFor_clear_set model_id
            (fun m => { applyModelFields m model_name model_code enabled with
                        is_default := true })
            (fun m => rfl) (fun m => rfl) model st.models hfm g
          by_cases hg : g = model.factor_id
          · rw [if_pos hg] at hcs
            exact hcs
          · rw [if_neg hg] at hcs
            exact le_trans hcs (hinv g)

/-- Witness for C9: from a state with one default model of factor 10,
creating a second model of factor 10 with `is_default = true` clears the
old default and leaves exactly one default. -/
theorem claim_C9_witness :
    AtMostOneDefault
      [{ id := 1, factor_id := 10, model_name := "m1", model_code := "c1",
         is_default := false, enabled := true },
       { id := 2, factor_id := 10, model_name := "n", model_code := "c",
         is_default := true, enabled := true }] := by
  have hinv : AtMostOneDefault
      [{ id := 1, factor_id := 10, model_name := "m1", model_code := "c1",
         is_default := true, enabled := true }] :=
    fun g => le_trans (List.length_filter_le _ _) (by simp)
  have h := (claim_C9_default_model_invariant
    ⟨[⟨10, ⟨none, none⟩⟩],
     [{ id := 1, factor_id := 10, model_name := "m1", model_code := "c1",
        is_default := true, enabled := true }], [], []⟩ hinv).1
    2 10 "n" "c" true true
    ⟨[⟨10, ⟨none, none⟩⟩],
     [{ id := 1, factor_id := 10, model_name := "m1", model_code := "c1",
        is_default := false, enabled := true },
      { id := 2, factor_id := 10, model_name := "n", model_code := "c",
        is_default := true, enabled := true }], [], []⟩ rfl
  exact h

/-- A valid observation has a parsed date not after the as-of date and a
numeric value. -/
theorem isValidObs_elim (asOf : Int) (o : Obs) (h : isValidObs asOf o = true) :
    ∃ d v, o.trade_date = some d ∧ o.value = FieldVal.num v ∧ d ≤ asOf := by
  unfold isValidObs at h
  cases ht : o.trade_date with
  | none =>
    rw [ht] at h
    cases hov : o.value <;> rw [hov] at h <;> simp at h
  | some d =>
    cases hov : o.value with
    | num v =>
      rw [ht, hov] at h
      exact ⟨d, v, rfl, rfl, by simpa using h⟩
    | null => rw [ht, hov] at h; simp at h
    | nonNumeric => rw [ht, hov] at h; simp at h

/-- A date-sorted list with pairwise-distinct dates is strictly sorted. -/
theorem sorted_strict_of_nodup_dates (l : List Obs) (hs : l.Sorted obsLE)
    (hnd : (l.map obsDate).Nodup) : l.Sorted obsLT := by
  have hne : l.Pairwise (fun a b => obsDate a ≠ obsDate b) := by
    rw [List.Nodup, List.pairwise_map] at hnd
    exact hnd
  exact (hs.and hne).imp (fun h => lt_of_le_of_ne h.1 h.2)

/-- Sorting by date is insensitive to the fetched order as long as the
dates are pairwise distinct. -/
theorem insertionSort_obs_eq_of_perm (l₁ l₂ : List Obs) (h : l₁.Perm l₂)
    (hnd : (l₁.map obsDate).Nodup) :
    List.insertionSort obsLE l₁ = List.insertionSort obsLE l₂ := by
  have hp : (List.insertionSort obsLE l₁).Perm (List.insertionSort obsLE l₂) :=
    (List.perm_insertionSort obsLE l₁).trans
      (h.trans (List.perm_insertionSort obsLE l₂).symm)
  have hnd₁ : ((List.insertionSort obsLE l₁).map obsDate).Nodup :=
    ((List.perm_insertionSort obsLE l₁).map obsDate).nodup_iff.mpr hnd
  have hnd₂ : ((List.insertionSort obsLE l₂).map obsDate).Nodup :=
    (hp.map obsDate).nodup_iff.mp hnd₁
  exact List.eq_of_perm_of_sorted hp
    (sorted_strict_of_nodup_dates _ (List.sorted_insertionSort obsLE l₁) hnd₁)
    (sorted_strict_of_nodup_dates _ (List.sorted_insertionSort obsLE l₂) hnd₂)

/-- C2: in moving-average mode the calculator keeps exactly the
observations with a parsed date (not after the as-of date) and a numeric
value; it returns `none` when fewer than `window` of those remain, and
otherwise the arithmetic mean of the `window` most recent of them after
sorting by date — and, when the valid dates are pairwise distinct (the
daily series has one row per date), the result is the same for every
fetched order of the observations. -/
theorem claim_C2_moving_average (cfg : CalcConfig) (asOf : Int)
    (rows rows' : List Obs)
    (hma : cfg.method = some "ma")
    (hnd : ((rows.filter (isValidObs asOf)).map obsDate).Nodup) :
    (rows.Perm rows' →
      calculate cfg asOf (Except.ok rows) = calculate cfg asOf (Except.ok rows')) ∧
    (((rows.filter (isValidObs asOf)).length : Int) < cfg.window →
      calculate cfg asOf (Except.ok rows) = none) ∧
    (¬ ((rows.filter (isValidObs asOf)).length : Int) < cfg.window →
      calculate cfg asOf (Except.ok rows) =
        some (meanVals ((lastN cfg.window.toNat
          (List.insertionSort obsLE (rows.filter (isValidObs asOf)))).map obsValue))) := by
  have hbeq : (cfg.method == some "ma") = true := by simp [hma]
  refine ⟨?_, ?_, ?_⟩
  · intro hperm
    have hpf : (rows.filter (isValidObs asOf)).Perm (rows'.filter (isValidObs asOf)) :=
      hperm.filter (isValidObs asOf)
    have hsort := insertionSort_obs_eq_of_perm _ _ hpf hnd
    simp only [calculate, hbeq, if_true]
    unfold calc_ma
    simp only [hpf.length_eq, hsort]
  · intro hlt
    simp only [calculate, hbeq, if_true]
    unfold calc_ma
    rw [if_pos hlt]
  · intro hge
    simp only [calculate, hbeq, if_true]
    unfold calc_ma
    rw [if_neg hge]

/-- Witness for C2: window 5 on the values 1, 2, 3, 4, 5 in a scrambled
fetch order gives the same result as the sorted order, namely their
mean 3. -/
theorem claim_C2_witness :
    calculate ⟨"daily_basic", "turnover_rate", some "ma", 5⟩ 10
      (Except.ok [⟨some 3, FieldVal.num 3⟩, ⟨some 1, FieldVal.num 1⟩,
        ⟨some 5, FieldVal.num 5⟩, ⟨some 4, FieldVal.num 4⟩,
        ⟨some 2, FieldVal.num 2⟩]) =
      calculate ⟨"daily_basic", "turnover_rate", some "ma", 5⟩ 10
        (Except.ok [⟨some 1, FieldVal.num 1⟩, ⟨some 2, FieldVal.num 2⟩,
          ⟨some 3, FieldVal.num 3⟩, ⟨some 4, FieldVal.num 4⟩,
          ⟨some 5, FieldVal.num 5⟩]) ∧
    calculate ⟨"daily_basic", "turnover_rate", some "ma", 5⟩ 10
      (Except.ok [⟨some 3, FieldVal.num 3⟩, ⟨some 1, FieldVal.num 1⟩,
        ⟨some 5, FieldVal.num 5⟩, ⟨some 4, FieldVal.num 4⟩,
        ⟨some 2, FieldVal.num 2⟩]) = some 3 := by
  have h := claim_C2_moving_average ⟨"daily_basic", "turnover_rate", some "ma", 5⟩ 10
    [⟨some 3, FieldVal.num 3⟩, ⟨some 1, FieldVal.num 1⟩,
     ⟨some 5, FieldVal.num 5⟩, ⟨some 4, FieldVal.num 4⟩,
     ⟨some 2, FieldVal.num 2⟩]
    [⟨some 1, FieldVal.num 1⟩, ⟨some 2, FieldVal.num 2⟩,
     ⟨some 3, FieldVal.num 3⟩, ⟨some 4, FieldVal.num 4⟩,
     ⟨some 5, FieldVal.num 5⟩]
    rfl (by decide)
  refine ⟨h.1 (by decide), (h.2.2 (by decide)).trans ?_⟩
  norm_num [List.insertionSort, List.orderedInsert, obsLE, obsDate, obsValue,
    isValidObs, List.filter, lastN, meanVals]

/-- C3: the calculator never propagates an exception — a raising fetch
yields `none`, and (for a positive window, as write-time validation
guarantees) so does any fetch whose rows carry no numeric value at all,
in raw mode and in moving-average mode alike. -/
theorem claim_C3_never_raises (cfg : CalcConfig) (asOf : Int) :
    calculate cfg asOf (Except.error ()) = none ∧
    (∀ rows : List Obs, (∀ o ∈ rows, ∀ v : ℚ, o.value ≠ FieldVal.num v) →
      1 ≤ cfg.window →
      calculate cfg asOf (Except.ok rows) = none) := by
  constructor
  · rfl
  · intro rows hno hw
    simp only [calculate]
    by_cases hm : (cfg.method == some "ma") = true
    · rw [if_pos hm]
      unfold calc_ma
      have hvalid : rows.filter (isValidObs asOf) = [] := by
        rw [List.filter_eq_nil_iff]
        intro o ho habs
        obtain ⟨d, v, _, hov, _⟩ := isValidObs_elim asOf o habs
        exact hno o ho v hov
      rw [hvalid]
      rw [if_pos (by simpa using hw)]
    · rw [if_neg hm]
      cases rows with
      | nil => rfl
      | cons r rest =>
        cases hv : r.value with
        | num v => exact absurd hv (hno r (by simp) v)
        | null => simp [hv]
        | nonNumeric => simp [hv]

/-- Witness for C3: with the moving-average configuration, a raising
fetch and an empty fetch both yield `none`. -/
theorem claim_C3_witness :
    calculate ⟨"daily_basic", "turnover_rate", some "ma", 5⟩ 10
      (Except.error ()) = none ∧
    calculate ⟨"daily_basic", "turnover_rate", some "ma", 5⟩ 10
      (Except.ok []) = none := by
  have h := claim_C3_never_raises ⟨"daily_basic", "turnover_rate", some "ma", 5⟩ 10
  exact ⟨h.1, h.2 [] (by intro o ho v; simp at ho) (by decide)⟩

/-- C8: `validate_config` rejects an out-of-range moving-average window
with two distinct window-specific messages (one for `window ≤ 0`, one
for `window > 60`), an unrecognized source with a source-specific
message, and an empty field with a field-specific message; it accepts
every configuration with a recognized source, a non-empty field and —
when the method is `"ma"` — a window in `[1, 60]`. -/
theorem claim_C8_validate_config (cfg : CalcConfig) :
    (SUPPORTED_SOURCES.contains cfg.source = true → cfg.field ≠ "" →
      cfg.method = some "ma" →
      (cfg.window ≤ 0 →
        validate_config cfg = (false, "移动平均窗口大小必须是正整数")) ∧
      (60 < cfg.window →
        validate_config cfg = (false, "移动平均窗口大小不能超过60")) ∧
      ("移动平均窗口大小必须是正整数" : String) ≠ "移动平均窗口大小不能超过60") ∧
    (SUPPORTED_SOURCES.contains cfg.source = false →
      validate_config cfg = (false, "不支持的数据来源: " ++ cfg.source)) ∧
    (SUPPORTED_SOURCES.contains cfg.source = true → cfg.field = "" →
      validate_config cfg = (false, "字段名不能为空")) ∧
    (SUPPORTED_SOURCES.contains cfg.source = true → cfg.field ≠ "" →
      (cfg.method = some "ma" → 1 ≤ cfg.window ∧ cfg.window ≤ 60) →
      validate_config cfg = (true, "")) := by
  have hred : ∀ (hsrc : SUPPORTED_SOURCES.contains cfg.source = true)
      (hfield : cfg.field ≠ ""),
      validate_config cfg =
        (if cfg.method == some "ma" then
          if cfg.window ≤ 0 then (false, "移动平均窗口大小必须是正整数")
          else if 60 < cfg.window then (false, "移动平均窗口大小不能超过60")
          else (true, "")
         else (true, "")) := by
    intro hsrc hfield
    unfold validate_config
    rw [hsrc]
    rw [if_neg (by simp), if_neg hfield]
  refine ⟨?_, ?_, ?_, ?_⟩
  · intro hsrc hfield hma
    have hbeq : (cfg.method == some "ma") = true := by simp [hma]
    refine ⟨?_, ?_, by decide⟩
    · intro hw
      rw [hred hsrc hfield, if_pos hbeq, if_pos hw]
    · intro hw
      have hw0 : ¬ cfg.window ≤ 0 := by omega
      rw [hred hsrc hfield, if_pos hbeq, if_neg hw0, if_pos hw]
  · intro hsrc
    unfold validate_config
    rw [hsrc]
    rfl
  · intro hsrc hfield
    unfold validate_config
    rw [hsrc]
    rw [if_neg (by simp), if_pos hfield]
  · intro hsrc hfield hwin
    by_cases hma : cfg.method = some "ma"
    · obtain ⟨h1, h2⟩ := hwin hma
      have hbeq : (cfg.method == some "ma") = true := by simp [hma]
      have hw0 : ¬ cfg.window ≤ 0 := by omega
      have hw61 : ¬ 60 < cfg.window := by omega
      rw [hred hsrc hfield, if_pos hbeq, if_neg hw0, if_neg hw61]
    · have hbeq : ¬ (cfg.method == some "ma") = true := by simp [hma]
      rw [hred hsrc hfield, if_neg hbeq]

/-- Witness for C8: windows 0 and 61 fail with the two distinct window
messages, source `"bogus"` and an empty field fail with their own
messages, and a well-formed moving-average configuration passes. -/
theorem claim_C8_witness :
    validate_config ⟨"daily_basic", "turnover_rate", some "ma", 0⟩ =
      (false, "移动平均窗口大小必须是正整数") ∧
    validate_config ⟨"daily_basic", "turnover_rate", some "ma", 61⟩ =
      (false, "移动平均窗口大小不能超过60") ∧
    validate_config ⟨"bogus", "turnover_rate", none, 5⟩ =
      (false, "不支持的数据来源: bogus") ∧
    validate_config ⟨"daily_basic", "", none, 5⟩ = (false, "字段名不能为空") ∧
    validate_config ⟨"daily_basic", "turnover_rate", some "ma", 5⟩ = (true, "") := by
  refine ⟨?_, ?_, ?_, ?_, ?_⟩
  · exact ((claim_C8_validate_config ⟨"daily_basic", "turnover_rate", some "ma", 0⟩).1
      (by decide) (by decide) rfl).1 (by decide)
  · exact (((claim_C8_validate_config ⟨"daily_basic", "turnover_rate", some "ma", 61⟩).1
      (by decide) (by decide) rfl).2.1 (by decide))
  · exact ((claim_C8_validate_config ⟨"bogus", "turnover_rate", none, 5⟩).2.1
      (by decide)).trans (by decide)
  · exact (claim_C8_validate_config ⟨"daily_basic", "", none, 5⟩).2.2.1
      (by decide) rfl
  · exact (claim_C8_validate_config ⟨"daily_basic", "turnover_rate", some "ma", 5⟩).2.2.2
      (by decide) (by decide) (fun _ => by constructor <;> decide)

end Zquant
